import Mathlib

/-!
Verification of the CDM serializer of `libpvm-harness` (`src/cdm_view.rs`)
against its natural-language specification.

The development shallowly embeds the data model and the worker of
`CDMView::create`: machine words are `Nat` with explicit `% 2^w`, the
Avro value tree is an inductive type, and the stream-consuming loop is a
function on a list of mutation events.
-/

namespace CDM

/-- 2^32, the modulus for 32-bit word arithmetic in the hash. -/
def W32 : Nat := 4294967296

/-- Left rotation of a 32-bit word represented as a `Nat` below `W32`. -/
def rotl (n x : Nat) : Nat :=
  ((x * 2 ^ n) % W32) ||| (x / 2 ^ (32 - n))

/-- 32-bit complement. -/
def comp32 (x : Nat) : Nat := Nat.xor x (W32 - 1)

/-- Big-endian bytes of a number, fixed width `n` bytes. -/
def beBytes (n : Nat) (x : Nat) : List Nat :=
  (List.range n).map (fun i => x / 2 ^ (8 * (n - 1 - i)) % 256)

/-- Assemble a 32-bit word from four big-endian bytes. -/
def word32 (a b c d : Nat) : Nat := ((a * 256 + b) * 256 + c) * 256 + d

/-- Split a byte list into the 16 big-endian 32-bit words of one 64-byte
chunk (missing bytes read as 0; the padded input always has 64). -/
def chunkWords (bs : List Nat) : List Nat :=
  (List.range 16).map (fun i =>
    word32 (bs.getD (4 * i) 0) (bs.getD (4 * i + 1) 0)
           (bs.getD (4 * i + 2) 0) (bs.getD (4 * i + 3) 0))

/-- One step of the SHA-1 message-schedule extension, on the reversed
word list (most recent word first). -/
def extendStep (w : List Nat) : List Nat :=
  rotl 1 (Nat.xor (Nat.xor (w.getD 2 0) (w.getD 7 0))
                  (Nat.xor (w.getD 13 0) (w.getD 15 0))) :: w

/-- Extend 16 schedule words to 80 (input and output in reverse order). -/
def extendWords (w : List Nat) : List Nat :=
  (List.range 64).foldl (fun acc _ => extendStep acc) w

/-- SHA-1 round function and constant for round `i`. -/
def sha1FK (i b c d : Nat) : Nat × Nat :=
  if i < 20 then ((b &&& c) ||| (comp32 b &&& d), 1518500249)
  else if i < 40 then (Nat.xor (Nat.xor b c) d, 1859775393)
  else if i < 60 then ((b &&& c) ||| (b &&& d) ||| (c &&& d), 2400959708)
  else (Nat.xor (Nat.xor b c) d, 3395469782)

/-- The five-word SHA-1 state. -/
structure Sha1State where
  h0 : Nat
  h1 : Nat
  h2 : Nat
  h3 : Nat
  h4 : Nat
deriving DecidableEq, Repr

/-- The SHA-1 initial state. -/
def sha1Init : Sha1State :=
  ⟨1732584193, 4023233417, 2562383102, 271733878, 3285377520⟩

/-- Process one 64-byte chunk. -/
def sha1Chunk (st : Sha1State) (chunk : List Nat) : Sha1State :=
  let ws := (extendWords (chunkWords chunk).reverse).reverse
  let r := ws.enum.foldl
    (fun (t : Nat × Nat × Nat × Nat × Nat) (iw : Nat × Nat) =>
      let (a, b, c, d, e) := t
      let (f, k) := sha1FK iw.1 b c d
      ((rotl 5 a + f + e + k + iw.2) % W32, a, rotl 30 b, c, d))
    (st.h0, st.h1, st.h2, st.h3, st.h4)
  ⟨(st.h0 + r.1) % W32, (st.h1 + r.2.1) % W32, (st.h2 + r.2.2.1) % W32,
   (st.h3 + r.2.2.2.1) % W32, (st.h4 + r.2.2.2.2) % W32⟩

/-- SHA-1 padding: append `0x80`, zeros to 56 mod 64, then the 64-bit
big-endian bit length. -/
def sha1Pad (msg : List Nat) : List Nat :=
  msg ++ [128] ++ List.replicate ((119 - msg.length % 64) % 64) 0
      ++ beBytes 8 (msg.length * 8)

/-- Split a list into 64-byte chunks. -/
def toChunks (l : List Nat) : List (List Nat) :=
  if l.length ≤ 64 then [l.take 64]
  else l.take 64 :: toChunks (l.drop 64)
termination_by l.length
decreasing_by
  simp only [List.length_drop]
  omega

/-- The 20-byte SHA-1 digest of a byte list. -/
def sha1 (msg : List Nat) : List Nat :=
  let st := (toChunks (sha1Pad msg)).foldl sha1Chunk sha1Init
  beBytes 4 st.h0 ++ beBytes 4 st.h1 ++ beBytes 4 st.h2
    ++ beBytes 4 st.h3 ++ beBytes 4 st.h4

/-- A 128-bit UUID as its 16 bytes. -/
structure Uuid where
  bytes : List Nat
deriving DecidableEq, Repr

/-- The all-zero (nil) UUID, `Uuid::nil()`. -/
def Uuid.nil : Uuid := ⟨List.replicate 16 0⟩

/-- Version-5 (SHA-1, namespaced) UUID construction, `Uuid::new_v5`:
the first 16 digest bytes of `namespace ++ name`, with the version
nibble of byte 6 set to 5 and the variant bits of byte 8 set to 10. -/
def uuidV5 (ns : Uuid) (name : List Nat) : Uuid :=
  let d := (sha1 (ns.bytes ++ name)).take 16
  let d := d.set 6 ((d.getD 6 0 &&& 15) ||| 80)
  ⟨d.set 8 ((d.getD 8 0 &&& 63) ||| 128)⟩

/-- Lowercase hex digit. -/
def hexDigit (n : Nat) : Char :=
  if n < 10 then Char.ofNat (48 + n) else Char.ofNat (87 + n)

/-- Two lowercase hex digits of a byte. -/
def hexByte (b : Nat) : List Char := [hexDigit (b / 16), hexDigit (b % 16)]

/-- `Uuid::hyphenated().to_string()`: lowercase hex in 8-4-4-4-12 groups. -/
def Uuid.hyphenated (u : Uuid) : String :=
  let hx := fun (l : List Nat) => String.mk (l.flatMap hexByte)
  hx (u.bytes.take 4) ++ "-" ++ hx ((u.bytes.drop 4).take 2) ++ "-"
    ++ hx ((u.bytes.drop 6).take 2) ++ "-" ++ hx ((u.bytes.drop 8).take 2)
    ++ "-" ++ hx (u.bytes.drop 10)

/-- The engine's internal node/edge identifier (`opus::data::ID`, a
numeric identifier unique within the engine's lifetime; the type lives
in the external engine crate and is observed here only through its
stable textual representation). -/
structure ID where
  val : Nat
deriving DecidableEq, Repr

/-- The stable debug representation of an internal identifier, the
string fed to the hash by `mkuuid` (`format!("\x7b:?\x7d", id)`). -/
def fmtID (id : ID) : String := "ID(" ++ toString id.val ++ ")"

/-- UTF-8 bytes of an ASCII string. -/
def strBytes (s : String) : List Nat := s.toList.map Char.toNat

/-- The identifier mapper: `mkuuid(id) = Uuid::new_v5(&Uuid::nil(),
&format!("\x7b:?\x7d", id))`. -/
def mkuuid (id : ID) : Uuid :=
  uuidV5 Uuid.nil (strBytes (fmtID id))

/-- The `avro_rs` value tree (`avro_rs::types::Value`), restricted to the
constructors this serializer produces. -/
inductive AvroValue where
  | null : AvroValue
  | int : Int → AvroValue
  | long : Int → AvroValue
  | string : String → AvroValue
  | fixed : Nat → List Nat → AvroValue
  | enum : Nat → String → AvroValue
  | union : AvroValue → AvroValue
  | map : List (String × AvroValue) → AvroValue
  | record : List (String × AvroValue) → AvroValue

/-- The static `NULL` value: `(None as Option<()>).avro()`, a union
wrapping null.  `AvroRecord::new(schema, Some(&NULL))` defaults every
field not explicitly `put` to this value. -/
def NULLV : AvroValue := AvroValue.union AvroValue.null

/-- Field lookup on an encoded Avro record. -/
def AvroValue.field (name : String) : AvroValue → Option AvroValue
  | AvroValue.record fs => fs.lookup name
  | _ => none

/-- `impl ToAvro for UuidW`: a 16-byte fixed value. -/
def UuidW.avro (u : Uuid) : AvroValue := AvroValue.fixed 16 u.bytes

/-- `impl ToAvro for Option<UuidW>` (from `avro_rs`): a union wrapping
null when absent, the value when present. -/
def optUuid.avro : Option Uuid → AvroValue
  | none => AvroValue.union AvroValue.null
  | some u => AvroValue.union (UuidW.avro u)

/-- `HashMap::insert` on the association-list model: replaces the value
at an existing key, otherwise appends. -/
def bagInsert (m : List (String × String)) (k v : String) :
    List (String × String) :=
  if m.any (fun p => p.1 = k) then
    m.map (fun p => if p.1 = k then (k, v) else p)
  else m ++ [(k, v)]

/-- `impl ToAvro for HashMap<String, String>` wrapped in the schema
union: `Union(Map(...))`. -/
def props.avro (m : List (String × String)) : AvroValue :=
  AvroValue.union (AvroValue.map (m.map (fun p => (p.1, AvroValue.string p.2))))

/-- The envelope discriminator enumeration (`RecordType`). -/
inductive RecordType where
  | recordHost
  | recordProvenanceTagNode
  | recordSubject
  | recordSrcSinkObject
  | recordEvent
deriving DecidableEq, Repr

/-- `impl ToAvro for RecordType`: the (integer code, symbolic name)
pairs written by the serializer, verbatim from the source. -/
def RecordType.avro : RecordType → AvroValue
  | RecordType.recordHost => AvroValue.enum 0 "RECORD_HOST"
  | RecordType.recordProvenanceTagNode =>
      AvroValue.enum 2 "RECORD_PROVENANCE_TAG_NODE"
  | RecordType.recordSubject => AvroValue.enum 3 "RECORD_SUBBJECT"
  | RecordType.recordSrcSinkObject =>
      AvroValue.enum 10 "RECORD_SRC_SINK_OBJECT"
  | RecordType.recordEvent => AvroValue.enum 1 "RECORD_EVENT"

/-- The host subtype enumeration (`HostType`); the serializer only ever
uses `HostServer`. -/
inductive HostType where
  | hostServer
deriving DecidableEq, Repr

/-- `impl ToAvro for HostType`: `Enum(1, "HOST_SERVER")`. -/
def HostType.avro : HostType → AvroValue
  | HostType.hostServer => AvroValue.enum 1 "HOST_SERVER"

/-- The subject subtype enumeration (`SubjectType`). -/
inductive SubjectType where
  | subjectProcess
deriving DecidableEq, Repr

/-- `impl ToAvro for SubjectType`: `Enum(0, "SUBJECT_PROCESS")`. -/
def SubjectType.avro : SubjectType → AvroValue
  | SubjectType.subjectProcess => AvroValue.enum 0 "SUBJECT_PROCESS"

/-- The source/sink subtype enumeration (`SrcSinkType`). -/
inductive SrcSinkType where
  | srcsinkUnknown
deriving DecidableEq, Repr

/-- `impl ToAvro for SrcSinkType`: `Enum(123, "SRCSINK_UNKNOWN")`. -/
def SrcSinkType.avro : SrcSinkType → AvroValue
  | SrcSinkType.srcsinkUnknown => AvroValue.enum 123 "SRCSINK_UNKNOWN"

/-- The event subtype enumeration (`EventType`). -/
inductive EventType where
  | eventFlowsTo
  | eventOther
deriving DecidableEq, Repr

/-- `impl ToAvro for EventType`. -/
def EventType.avro : EventType → AvroValue
  | EventType.eventFlowsTo => AvroValue.enum 16 "EVENT_FLOWS_TO"
  | EventType.eventOther => AvroValue.enum 31 "EVENT_OTHER"

/-- `impl ToAvro for InstrumentationSource`:
`Enum(3, "SOURCE_FREEBSD_DTRACE_CADETS")`. -/
def InstrumentationSource.avro : AvroValue :=
  AvroValue.enum 3 "SOURCE_FREEBSD_DTRACE_CADETS"

/-- The schema-version string written into every envelope
(`const CDMVERSION: &str = "19"`). -/
def CDMVERSION : String := "19"

/-- The `ProvenanceTagNode` schema-model struct. -/
structure ProvenanceTagNode where
  tag_id : Uuid
  properties : List (String × String)
deriving DecidableEq, Repr

/-- `impl ToAvro for ProvenanceTagNode`: note `subject` is put as
`UuidW::nil()`, the all-zero fixed value, not as a null union. -/
def ProvenanceTagNode.avro (p : ProvenanceTagNode) : AvroValue :=
  AvroValue.record
    [("tagId", UuidW.avro p.tag_id),
     ("subject", UuidW.avro Uuid.nil),
     ("properties", props.avro p.properties)]

/-- The `Host` schema-model struct. -/
structure Host where
  host_name : String
  host_type : HostType
deriving DecidableEq, Repr

/-- `impl ToAvro for Host`: uuid is the nil UUID, then name and type. -/
def Host.avro (h : Host) : AvroValue :=
  AvroValue.record
    [("uuid", UuidW.avro Uuid.nil),
     ("hostName", AvroValue.string h.host_name),
     ("hostType", h.host_type.avro)]

/-- The `Subject` schema-model struct. -/
structure Subject where
  uuid : Uuid
  ty : SubjectType
  properties : List (String × String)
deriving DecidableEq, Repr

/-- `impl ToAvro for Subject`. -/
def Subject.avro (s : Subject) : AvroValue :=
  AvroValue.record
    [("uuid", UuidW.avro s.uuid),
     ("type", s.ty.avro),
     ("cid", AvroValue.int 0),
     ("properties", props.avro s.properties)]

/-- The `AbstractObject` schema-model struct. -/
structure AbstractObject where
  properties : List (String × String)
deriving DecidableEq, Repr

/-- `impl ToAvro for AbstractObject`. -/
def AbstractObject.avro (a : AbstractObject) : AvroValue :=
  AvroValue.record [("properties", props.avro a.properties)]

/-- The `SrcSinkObject` schema-model struct (wraps `AbstractObject`). -/
structure SrcSinkObject where
  uuid : Uuid
  base_object : AbstractObject
  ty : SrcSinkType
deriving DecidableEq, Repr

/-- `impl ToAvro for SrcSinkObject`. -/
def SrcSinkObject.avro (s : SrcSinkObject) : AvroValue :=
  AvroValue.record
    [("uuid", UuidW.avro s.uuid),
     ("baseObject", s.base_object.avro),
     ("type", s.ty.avro)]

/-- The `Event` schema-model struct: three optional participant
identifiers and a nanosecond timestamp. -/
structure Event where
  uuid : Uuid
  ty : EventType
  subject : Option Uuid
  predicate_object : Option Uuid
  predicate_object2 : Option Uuid
  timestamp_nanos : Int
  properties : List (String × String)
deriving DecidableEq, Repr

/-- `impl ToAvro for Event`: the optional participants go through
`Option<UuidW>::avro`, so an absent participant encodes as a null
union. -/
def Event.avro (e : Event) : AvroValue :=
  AvroValue.record
    [("uuid", UuidW.avro e.uuid),
     ("type", e.ty.avro),
     ("subject", optUuid.avro e.subject),
     ("predicateObject", optUuid.avro e.predicate_object),
     ("predicateObject2", optUuid.avro e.predicate_object2),
     ("timestampNanos", AvroValue.long e.timestamp_nanos),
     ("properties", props.avro e.properties)]

/-- The tagged union of emitted record kinds (`enum Record`). -/
inductive Record where
  | host : Host → Record
  | provenanceTagNode : ProvenanceTagNode → Record
  | subject : Subject → Record
  | srcSinkObject : SrcSinkObject → Record
  | event : Event → Record
deriving DecidableEq, Repr

/-- `Record::into_avro`: the wrapped payload (as a union member)
paired with the envelope discriminator chosen for it. -/
def Record.into_avro : Record → AvroValue × RecordType
  | Record.host v => (AvroValue.union v.avro, RecordType.recordHost)
  | Record.provenanceTagNode v =>
      (AvroValue.union v.avro, RecordType.recordProvenanceTagNode)
  | Record.subject v => (AvroValue.union v.avro, RecordType.recordSubject)
  | Record.srcSinkObject v =>
      (AvroValue.union v.avro, RecordType.recordSrcSinkObject)
  | Record.event v => (AvroValue.union v.avro, RecordType.recordEvent)

/-- The concrete kind of a wrapped record, one discriminator per
constructor: the reference the discriminator tag must agree with. -/
def Record.kind : Record → RecordType
  | Record.host _ => RecordType.recordHost
  | Record.provenanceTagNode _ => RecordType.recordProvenanceTagNode
  | Record.subject _ => RecordType.recordSubject
  | Record.srcSinkObject _ => RecordType.recordSrcSinkObject
  | Record.event _ => RecordType.recordEvent

/-- `impl ToAvro for Record`: the `TCCDMDatum` envelope, with the
schema-version string, a zeroed host identifier, session number 0 and
the fixed instrumentation-source tag. -/
def Record.avro (r : Record) : AvroValue :=
  let da := r.into_avro
  AvroValue.record
    [("datum", da.1),
     ("CDMVersion", AvroValue.string CDMVERSION),
     ("type", da.2.avro),
     ("hostId", UuidW.avro Uuid.nil),
     ("sessionNumber", AvroValue.int 0),
     ("source", InstrumentationSource.avro)]

/-- The internal data-node categories (`opus PVMDataType`) matched on
by the classifier: `Actor`, `Store`, `Conduit`, `EditSession`, plus the
`StoreCont` variant whose arm is `unreachable!()`. -/
inductive PVMDataType where
  | actor
  | store
  | conduit
  | editSession
  | storeCont
deriving DecidableEq, Repr

/-- The `Display` string of a data category, used for the `base`
property of a data schema node (`ty.pvm_ty.to_string()`); the engine
crate renders each variant by its name. -/
def PVMDataType.toStr : PVMDataType → String
  | PVMDataType.actor => "Actor"
  | PVMDataType.store => "Store"
  | PVMDataType.conduit => "Conduit"
  | PVMDataType.editSession => "EditSession"
  | PVMDataType.storeCont => "StoreCont"

/-- An internal data node, with the accessors the classifier reads:
`get_db_id()`, `pvm_ty()`, `ty().name`, `uuid()`, `ctx()`. -/
structure DataNode where
  db_id : ID
  pvm_ty : PVMDataType
  ty_name : String
  uuid : Uuid
  ctx : ID
deriving DecidableEq, Repr

/-- An internal name node: `Path(id, path)` or `Net(id, addr, port)`. -/
inductive NameNode where
  | path : ID → String → NameNode
  | net : ID → String → Nat → NameNode
deriving DecidableEq, Repr

/-- An internal context node: `get_db_id()`, `ty().name`, and the
ordered field list `cont`. -/
structure CtxNode where
  db_id : ID
  ty_name : String
  cont : List (String × String)
deriving DecidableEq, Repr

/-- An internal schema node: `Data(id, ty)` carrying the declared name,
base data category and property-key list, or `Context(id, ty)` carrying
the declared name and field list. -/
inductive SchemaNode where
  | data : ID → String → PVMDataType → List String → SchemaNode
  | context : ID → String → List String → SchemaNode
deriving DecidableEq, Repr

/-- The internal node union matched by the classifier. -/
inductive Node where
  | data : DataNode → Node
  | name : NameNode → Node
  | ctx : CtxNode → Node
  | schema : SchemaNode → Node
deriving DecidableEq, Repr

/-- An inference edge: its own id, implicit source/destination, and a
context reference (`i.ctx`). -/
structure InfRel where
  db_id : ID
  src : ID
  dst : ID
  ctx : ID
deriving DecidableEq, Repr

/-- A named edge: its own id, source/destination, and explicit
`start`/`end` identifiers. -/
structure NamedRel where
  db_id : ID
  src : ID
  dst : ID
  start : ID
  «end» : ID
deriving DecidableEq, Repr

/-- The internal relationship union. -/
inductive Rel where
  | inf : InfRel → Rel
  | named : NamedRel → Rel
deriving DecidableEq, Repr

/-- `HasID::get_db_id` on a relationship. -/
def Rel.get_db_id : Rel → ID
  | Rel.inf i => i.db_id
  | Rel.named n => n.db_id

/-- `HasSrc::get_src` on a relationship. -/
def Rel.get_src : Rel → ID
  | Rel.inf i => i.src
  | Rel.named n => n.src

/-- `HasDst::get_dst` on a relationship. -/
def Rel.get_dst : Rel → ID
  | Rel.inf i => i.dst
  | Rel.named n => n.dst

/-- The mutation-event union delivered on the channel (`opus DBTr`). -/
inductive DBTr where
  | createNode : Node → DBTr
  | updateNode : Node → DBTr
  | createRel : Rel → DBTr
  | updateRel : Rel → DBTr
deriving DecidableEq, Repr

/-- Classification of a node event, verbatim from the match in
`CDMView::create`; `none` embeds the `unreachable!()` panic taken for
`PVMDataType::StoreCont`. -/
def classifyNode : Node → Option Record
  | Node.data d =>
    match d.pvm_ty with
    | PVMDataType.actor =>
        some (Record.subject
          { uuid := mkuuid d.db_id,
            ty := SubjectType.subjectProcess,
            properties := [("type", "Node;Actor"), ("schema", d.ty_name),
                           ("uuid", d.uuid.hyphenated),
                           ("ctx", (mkuuid d.ctx).hyphenated)] })
    | PVMDataType.store =>
        some (Record.srcSinkObject
          { uuid := mkuuid d.db_id,
            base_object :=
              { properties := [("type", "Node;Object;Store"),
                               ("schema", d.ty_name),
                               ("uuid", d.uuid.hyphenated),
                               ("ctx", (mkuuid d.ctx).hyphenated)] },
            ty := SrcSinkType.srcsinkUnknown })
    | PVMDataType.conduit =>
        some (Record.srcSinkObject
          { uuid := mkuuid d.db_id,
            base_object :=
              { properties := [("type", "Node;Object;Conduit"),
                               ("schema", d.ty_name),
                               ("uuid", d.uuid.hyphenated),
                               ("ctx", (mkuuid d.ctx).hyphenated)] },
            ty := SrcSinkType.srcsinkUnknown })
    | PVMDataType.editSession =>
        some (Record.srcSinkObject
          { uuid := mkuuid d.db_id,
            base_object :=
              { properties := [("type", "Node;Object;EditSession"),
                               ("schema", d.ty_name),
                               ("uuid", d.uuid.hyphenated),
                               ("ctx", (mkuuid d.ctx).hyphenated)] },
            ty := SrcSinkType.srcsinkUnknown })
    | PVMDataType.storeCont => none
  | Node.name (NameNode.path id pth) =>
      some (Record.provenanceTagNode
        { tag_id := mkuuid id,
          properties := [("type", "Node;Name;Path"), ("path", pth)] })
  | Node.name (NameNode.net id addr port) =>
      some (Record.provenanceTagNode
        { tag_id := mkuuid id,
          properties := [("type", "Node;Name;Net"), ("addr", addr),
                         ("port", toString port)] })
  | Node.ctx c =>
      some (Record.provenanceTagNode
        { tag_id := mkuuid c.db_id,
          properties :=
            c.cont.foldl (fun m p => bagInsert m p.1 p.2)
              [("type", "Node;Context"), ("schema", c.ty_name)] })
  | Node.schema (SchemaNode.data id name ty props) =>
      some (Record.provenanceTagNode
        { tag_id := mkuuid id,
          properties := [("type", "Node;Schema"), ("name", name),
                         ("base", ty.toStr),
                         ("props", String.intercalate ";" props)] })
  | Node.schema (SchemaNode.context id name props) =>
      some (Record.provenanceTagNode
        { tag_id := mkuuid id,
          properties := [("type", "Node;Schema"), ("name", name),
                         ("base", "Context"),
                         ("props", String.intercalate ";" props)] })

/-- Classification of a relationship event, verbatim from the match in
`CDMView::create`; total — no relationship arm can panic. -/
def classifyRel (r : Rel) : Record
  :=
  match r with
  | Rel.inf i =>
      Record.event
        { uuid := mkuuid (Rel.get_db_id (Rel.inf i)),
          ty := EventType.eventFlowsTo,
          subject := none,
          predicate_object := some (mkuuid (Rel.get_src (Rel.inf i))),
          predicate_object2 := some (mkuuid (Rel.get_dst (Rel.inf i))),
          timestamp_nanos := 0,
          properties := [("type", "INF"),
                         ("ctx", (mkuuid i.ctx).hyphenated)] }
  | Rel.named n =>
      Record.event
        { uuid := mkuuid (Rel.get_db_id (Rel.named n)),
          ty := EventType.eventOther,
          subject := some (mkuuid (Rel.get_src (Rel.named n))),
          predicate_object := some (mkuuid (Rel.get_dst (Rel.named n))),
          predicate_object2 := none,
          timestamp_nanos := 0,
          properties := [("type", "NAMED"),
                         ("start", (mkuuid n.start).hyphenated),
                         ("end", (mkuuid n.«end»).hyphenated)] }

/-- The per-event classifier of the worker loop: `CreateNode` and
`UpdateNode` share one arm, as do `CreateRel` and `UpdateRel`. -/
def classify : DBTr → Option Record
  | DBTr.createNode n => classifyNode n
  | DBTr.updateNode n => classifyNode n
  | DBTr.createRel r => some (classifyRel r)
  | DBTr.updateRel r => some (classifyRel r)

/-- The synthetic leading Host record appended before the loop:
`Host \x7b host_name: "", host_type: HostType::HostServer \x7d`. -/
def hostRecord : Host := { host_name := "", host_type := HostType.hostServer }

/-- The worker loop over the event stream: one appended record per
event, in arrival order; a `none` classification is the panic of the
`unreachable!()` arm, which aborts the worker. -/
def runLoop : List DBTr → List Record
  | [] => []
  | e :: es =>
    match classify e with
    | some r => r :: runLoop es
    | none => []

/-- The sequence of records appended to the output container for a
finite input stream: the leading Host record, then the loop. -/
def cdmOutput (evs : List DBTr) : List Record :=
  Record.host hostRecord :: runLoop evs

/-- Modelled from the spec: the spec names enumerated subtype codes by
semantic glosses of their symbolic names (it calls `EVENT_OTHER` the
"generic/other" subtype and `SRCSINK_UNKNOWN` the "unknown
source/sink" subtype); under that same convention the "other/generic
host" subtype code denotes the `OTHER` member of the host-type
enumeration, symbol `HOST_OTHER` — a symbol this serializer never
writes. -/
def otherGenericHostSymbol : String := "HOST_OTHER"

/-- Whether a mutation event's entity subtype belongs to the taxonomy
defined in the spec's data model: data nodes subtyped Actor, Store,
Conduit or EditSession; Path or Network name nodes; context nodes;
schema nodes; inference or named edges.  `StoreCont` data nodes are
outside that taxonomy. -/
def wfNode : Node → Bool
  | Node.data d =>
    match d.pvm_ty with
    | PVMDataType.storeCont => false
    | _ => true
  | _ => true

/-- Taxonomy membership lifted to mutation events. -/
def wfEvent : DBTr → Bool
  | DBTr.createNode n => wfNode n
  | DBTr.updateNode n => wfNode n
  | DBTr.createRel _ => true
  | DBTr.updateRel _ => true

/-- C1: for every record the serializer emits, the envelope's
discriminator tag agrees with the concrete kind of the wrapped record
(Host payloads are tagged with the Host discriminator, and so on for
ProvenanceTagNode, Subject, SrcSinkObject and Event), both in the pair
returned by `Record::into_avro` and in the `type` field of the written
envelope. -/
theorem c1_envelope_discriminator_agreement (r : Record) :
    (Record.into_avro r).2 = Record.kind r ∧
    AvroValue.field "type" (Record.avro r) = some (Record.kind r).avro := by
  cases r <;> exact ⟨rfl, rfl⟩

/-- C2: the identifier mapper `mkuuid` is a pure, deterministic
function of the internal identifier alone: equal identifiers yield
equal 128-bit values, on every invocation, with no dependence on
randomness or process-local state (the embedding is a closed function
of the identifier, built from the namespaced SHA-1 hash of its stable
textual representation). -/
theorem c2_mkuuid_deterministic (a b : ID) (h : a = b) :
    mkuuid a = mkuuid b :=
  congrArg mkuuid h

/-- Witness for C2 at the concrete identifier 42. -/
theorem c2_mkuuid_deterministic_witness :
    ID.mk 42 = ID.mk 42 ∧ mkuuid (ID.mk 42) = mkuuid (ID.mk 42) :=
  ⟨rfl, c2_mkuuid_deterministic (ID.mk 42) (ID.mk 42) rfl⟩

/-- C3 counterexample: with no input events the container holds exactly
the synthetic leading Host record, but its host subtype encodes as
`Enum(1, "HOST_SERVER")` — the dedicated-server code — which is not
the "other/generic host" symbol the claim requires. -/
theorem c3_counterexample :
    cdmOutput [] = [Record.host hostRecord] ∧
    HostType.avro hostRecord.host_type = AvroValue.enum 1 "HOST_SERVER" ∧
    "HOST_SERVER" ≠ otherGenericHostSymbol := by
  refine ⟨rfl, rfl, ?_⟩
  decide

/-- C3 (amended): the first record written to the output container,
before any input event is consumed, is a synthetic Host envelope whose
host-name is the empty string and whose host subtype code is the fixed
server-host code (`HOST_SERVER`, integer code 1), with all other
fields defaulted (nil uuid and host id, version "19", session 0, fixed
instrumentation source). -/
theorem c3_first_record_host (evs : List DBTr) :
    (cdmOutput evs).head? = some (Record.host hostRecord) ∧
    hostRecord.host_name = "" ∧
    Record.avro (Record.host hostRecord) =
      AvroValue.record
        [("datum", AvroValue.union (AvroValue.record
            [("uuid", AvroValue.fixed 16 (List.replicate 16 0)),
             ("hostName", AvroValue.string ""),
             ("hostType", AvroValue.enum 1 "HOST_SERVER")])),
         ("CDMVersion", AvroValue.string "19"),
         ("type", AvroValue.enum 0 "RECORD_HOST"),
         ("hostId", AvroValue.fixed 16 (List.replicate 16 0)),
         ("sessionNumber", AvroValue.int 0),
         ("source", AvroValue.enum 3 "SOURCE_FREEBSD_DTRACE_CADETS")] :=
  ⟨rfl, rfl, rfl⟩

/-- C4 counterexample: the `subject` field of an emitted
ProvenanceTagNode is encoded as the all-zero 16-byte fixed value — the
zero sentinel — and not as the schema's explicit-absence (null union)
representation. -/
theorem c4_counterexample :
    AvroValue.field "subject"
        (ProvenanceTagNode.avro
          { tag_id := mkuuid (ID.mk 1), properties := [] })
      = some (AvroValue.fixed 16 (List.replicate 16 0)) ∧
    AvroValue.fixed 16 (List.replicate 16 0) ≠ NULLV := by
  refine ⟨rfl, fun h => ?_⟩
  exact AvroValue.noConfusion h

/-- C4 (amended): absent optional participant identifiers on emitted
Event records (the unset subject of an inference-edge Event, the unset
second predicate object of a named-edge Event) are encoded as the null
union, never the zero sentinel; the subject of a ProvenanceTagNode,
however, which has no internal counterpart, is encoded as the all-zero
128-bit fixed value rather than as null. -/
theorem c4_absent_participants (e : Event) (p : ProvenanceTagNode) :
    (e.subject = none →
      AvroValue.field "subject" e.avro
        = some (AvroValue.union AvroValue.null)) ∧
    (e.predicate_object2 = none →
      AvroValue.field "predicateObject2" e.avro
        = some (AvroValue.union AvroValue.null)) ∧
    AvroValue.field "subject" p.avro
      = some (AvroValue.fixed 16 (List.replicate 16 0)) := by
  refine ⟨fun h => ?_, fun h => ?_, rfl⟩
  · rw [Event.avro, h]; rfl
  · rw [Event.avro, h]; rfl

/-- Witness for C4 (amended) at a concrete Event with both optional
participants absent and a concrete ProvenanceTagNode. -/
theorem c4_absent_participants_witness :
    AvroValue.field "subject"
      (Event.avro ⟨Uuid.nil, EventType.eventFlowsTo, none, none, none, 0, []⟩)
      = some (AvroValue.union AvroValue.null) ∧
    AvroValue.field "subject" (ProvenanceTagNode.avro ⟨Uuid.nil, []⟩)
      = some (AvroValue.fixed 16 (List.replicate 16 0)) :=
  ⟨(c4_absent_participants
      ⟨Uuid.nil, EventType.eventFlowsTo, none, none, none, 0, []⟩
      ⟨Uuid.nil, []⟩).1 rfl,
   (c4_absent_participants
      ⟨Uuid.nil, EventType.eventFlowsTo, none, none, none, 0, []⟩
      ⟨Uuid.nil, []⟩).2.2⟩

/-- The loop emits exactly one record per event, in arrival order, as
long as no event reaches the panicking arm. -/
theorem runLoop_forall₂ (evs : List DBTr)
    (h : ∀ e ∈ evs, (classify e).isSome = true) :
    List.Forall₂ (fun e r => classify e = some r) evs (runLoop evs) := by
  induction evs with
  | nil => exact List.Forall₂.nil
  | cons e es ih =>
    have he : (classify e).isSome = true := h e (List.mem_cons_self e es)
    obtain ⟨r, hr⟩ := Option.isSome_iff_exists.mp he
    simp only [runLoop, hr]
    exact List.Forall₂.cons hr (ih fun x hx => h x (List.mem_cons_of_mem e hx))

/-- C5: for a finite input sequence of `N` mutation events (each inside
the defined taxonomy, so none reaches the panicking arm), the output
container holds exactly `N + 1` records — the leading Host record
followed by exactly one record per input event, pointwise classified in
the same relative order, with no reordering, dropping or duplication —
and for `N = 0` it holds exactly the one Host record. -/
theorem c5_order_preservation (evs : List DBTr)
    (h : ∀ e ∈ evs, (classify e).isSome = true) :
    (cdmOutput evs).length = evs.length + 1 ∧
    (cdmOutput evs).head? = some (Record.host hostRecord) ∧
    List.Forall₂ (fun e r => classify e = some r) evs (cdmOutput evs).tail ∧
    cdmOutput [] = [Record.host hostRecord] := by
  have h2 := runLoop_forall₂ evs h
  have hlen := h2.length_eq
  refine ⟨?_, rfl, h2, rfl⟩
  simp only [cdmOutput, List.length_cons, hlen]

/-- Witness for C5 on a concrete two-event stream. -/
theorem c5_order_preservation_witness :
    (∀ e ∈ [DBTr.createNode (Node.ctx (CtxNode.mk (ID.mk 1) "proc" [])),
            DBTr.createRel (Rel.named
              (NamedRel.mk (ID.mk 2) (ID.mk 3) (ID.mk 4) (ID.mk 5) (ID.mk 6)))],
        (classify e).isSome = true) ∧
    (cdmOutput [DBTr.createNode (Node.ctx (CtxNode.mk (ID.mk 1) "proc" [])),
                DBTr.createRel (Rel.named
                  (NamedRel.mk (ID.mk 2) (ID.mk 3) (ID.mk 4) (ID.mk 5) (ID.mk 6)))]).length
      = 2 + 1 := by
  have h : ∀ e ∈ [DBTr.createNode (Node.ctx (CtxNode.mk (ID.mk 1) "proc" [])),
            DBTr.createRel (Rel.named
              (NamedRel.mk (ID.mk 2) (ID.mk 3) (ID.mk 4) (ID.mk 5) (ID.mk 6)))],
      (classify e).isSome = true := by
    intro e he
    rcases List.mem_cons.mp he with h1 | h1
    · subst h1; rfl
    · rcases List.mem_cons.mp h1 with h2 | h2
      · subst h2; rfl
      · exact absurd h2 (List.not_mem_nil e)
  exact ⟨h, (c5_order_preservation _ h).1⟩

/-- C7: a CreateRel carrying a named edge with source S, destination D,
explicit start A and end B emits an Event with the "generic/other"
subtype (`EVENT_OTHER`), subject `mkuuid S`, first predicate object
`mkuuid D`, second predicate object absent, and property bag
`type = "NAMED"`, `start = mkuuid A`, `end = mkuuid B` (the identifier
values stringified in hyphenated form). -/
theorem c7_named_edge (n : NamedRel) :
    classify (DBTr.createRel (Rel.named n)) =
      some (Record.event
        { uuid := mkuuid n.db_id,
          ty := EventType.eventOther,
          subject := some (mkuuid n.src),
          predicate_object := some (mkuuid n.dst),
          predicate_object2 := none,
          timestamp_nanos := 0,
          properties := [("type", "NAMED"),
                         ("start", (mkuuid n.start).hyphenated),
                         ("end", (mkuuid n.«end»).hyphenated)] }) := rfl

/-- Node classification is total on the defined taxonomy. -/
theorem classifyNode_total (n : Node) (h : wfNode n = true) :
    ∃ r, classifyNode n = some r := by
  cases n with
  | data d =>
    obtain ⟨id, ty, nm, u, cx⟩ := d
    cases ty with
    | actor => exact ⟨_, rfl⟩
    | store => exact ⟨_, rfl⟩
    | conduit => exact ⟨_, rfl⟩
    | editSession => exact ⟨_, rfl⟩
    | storeCont => exact Bool.noConfusion h
  | name nn => cases nn with
    | path id pth => exact ⟨_, rfl⟩
    | net id addr port => exact ⟨_, rfl⟩
  | ctx c => exact ⟨_, rfl⟩
  | schema s => cases s with
    | data id nm ty props => exact ⟨_, rfl⟩
    | context id nm props => exact ⟨_, rfl⟩

/-- C8: classification is total over all defined event/entity
combinations — every mutation event whose entity subtype belongs to the
taxonomy of the data model produces exactly one external record, and
the panicking `unreachable!()` arm (embedded as `none`) is never
reached. -/
theorem c8_classification_total (e : DBTr) (h : wfEvent e = true) :
    ∃ r, classify e = some r := by
  cases e with
  | createNode n => exact classifyNode_total n h
  | updateNode n => exact classifyNode_total n h
  | createRel r => exact ⟨classifyRel r, rfl⟩
  | updateRel r => exact ⟨classifyRel r, rfl⟩

/-- Witness for C8 at a concrete UpdateNode event on an EditSession
data node. -/
theorem c8_classification_total_witness :
    wfEvent (DBTr.updateNode (Node.data
      (DataNode.mk (ID.mk 9) PVMDataType.editSession "file" Uuid.nil (ID.mk 10))))
      = true ∧
    ∃ r, classify (DBTr.updateNode (Node.data
      (DataNode.mk (ID.mk 9) PVMDataType.editSession "file" Uuid.nil (ID.mk 10))))
      = some r :=
  ⟨rfl, c8_classification_total _ rfl⟩

/-- Node classification never yields an Event record. -/
theorem classifyNode_no_event (n : Node) (ev : Event) :
    classifyNode n ≠ some (Record.event ev) := by
  cases n with
  | data d =>
    obtain ⟨id, ty, nm, u, cx⟩ := d
    cases ty <;> simp [classifyNode]
  | name nn => cases nn <;> simp [classifyNode]
  | ctx c => simp [classifyNode]
  | schema s => cases s <;> simp [classifyNode]

/-- C9: every emitted Event record — for inference edges and named
edges alike, and for every input event — carries `timestampNanos = 0`;
the nanosecond timestamp is never populated from the event. -/
theorem c9_timestamp_always_zero (e : DBTr) (ev : Event)
    (h : classify e = some (Record.event ev)) :
    ev.timestamp_nanos = 0 := by
  cases e with
  | createNode n => exact absurd h (classifyNode_no_event n ev)
  | updateNode n => exact absurd h (classifyNode_no_event n ev)
  | createRel r =>
    cases r with
    | inf i =>
      simp only [classify, classifyRel, Option.some.injEq,
        Record.event.injEq] at h
      rw [← h]
    | named n =>
      simp only [classify, classifyRel, Option.some.injEq,
        Record.event.injEq] at h
      rw [← h]
  | updateRel r =>
    cases r with
    | inf i =>
      simp only [classify, classifyRel, Option.some.injEq,
        Record.event.injEq] at h
      rw [← h]
    | named n =>
      simp only [classify, classifyRel, Option.some.injEq,
        Record.event.injEq] at h
      rw [← h]

/-- Witness for C9 at a concrete inference-edge event. -/
theorem c9_timestamp_always_zero_witness :
    (Event.mk (mkuuid (ID.mk 1)) EventType.eventFlowsTo none
      (some (mkuuid (ID.mk 2))) (some (mkuuid (ID.mk 3))) 0
      [("type", "INF"), ("ctx", (mkuuid (ID.mk 4)).hyphenated)]).timestamp_nanos
      = 0 :=
  c9_timestamp_always_zero
    (DBTr.createRel (Rel.inf (InfRel.mk (ID.mk 1) (ID.mk 2) (ID.mk 3) (ID.mk 4))))
    _ rfl

/-- C10: an UpdateNode event is classified by exactly the same mapping
as a CreateNode event for the same entity, and an UpdateRel by the same
mapping as a CreateRel: the update emits a complete fresh record equal
to the one the corresponding create emits — in particular with the same
128-bit identifier, since the internal identifier is unchanged and
`mkuuid` is deterministic — so the output carries one full record per
update rather than a delta. -/
theorem c10_update_same_as_create :
    (∀ n : Node, classify (DBTr.updateNode n) = classify (DBTr.createNode n)) ∧
    (∀ r : Rel, classify (DBTr.updateRel r) = classify (DBTr.createRel r)) :=
  ⟨fun _ => rfl, fun _ => rfl⟩

end CDM
